import Mathlib

/-!
Verification development for the go-design-patterns repository

Shallow embedding of three packages of the repository:

* `concurrency/pubsub`      (`Broker`, `Subscribe`, `Publish`, `Unsubscribe`)
* `structural/facade`       (`BankTransferFacade.Transfer` and the two bank APIs)
* `creational/factory_method` (`DeviceFactory.CreateDevice` and the two devices)

Go channels are identified by the number the allocator gave them, the
`subscribers` map (a set of channels) is a `Finset`, and the goroutines that
`Publish` spawns are a multiset of pending sends, because neither map iteration
order nor goroutine scheduling order is fixed by the language.
-/

namespace pubsub

/-- A Go `chan string`, identified by its allocation number. -/
abbrev Chan := Nat

/-- The broker together with the part of the Go runtime it acts on.
`subscribers` is the field of the same name; the mutex is modelled by making
every method body one atomic step. -/
structure Broker where
  /-- The field `subscribers map[chan string]struct{}`. -/
  subscribers : Finset Chan
  /-- Number of channels `make(chan string)` has handed out so far. -/
  nextChan : Nat
  /-- Channels on which `close` has been executed. -/
  closed : Finset Chan
  /-- Goroutines `go func(ch) { ch <- msg }(ch)` that have not finished their send. -/
  sending : Multiset (Chan × String)
  /-- Completed sends, in the order in which the receivers took them. -/
  received : List (Chan × String)
  /-- Set once a goroutine has panicked (the Go process is then dead). -/
  panicked : Bool
deriving DecidableEq

/-- Source `NewBroker`: an empty `subscribers` map. -/
def NewBroker : Broker :=
  { subscribers := ∅, nextChan := 0, closed := ∅, sending := 0, received := [], panicked := false }

/-- Source `Broker.Subscribe`: `ch := make(chan string)`, then `b.subscribers[ch] = struct{}{}`
under the lock; returns `ch`. -/
def Subscribe (b : Broker) : Chan × Broker :=
  let ch := b.nextChan
  (ch, { b with nextChan := b.nextChan + 1, subscribers := insert ch b.subscribers })

/-- Source `Broker.Publish`: under the lock, `for ch := range b.subscribers` spawns one
goroutine that performs `ch <- msg`. Nothing is sent inside `Publish` itself. -/
def Publish (b : Broker) (msg : String) : Broker :=
  { b with sending := b.sending + b.subscribers.val.map (fun ch => (ch, msg)) }

/-- Source `Broker.Unsubscribe`: `delete(b.subscribers, ch)` and then `close(ch)`.
Go's `close` panics on a channel that is already closed. -/
def Unsubscribe (b : Broker) (ch : Chan) : Broker :=
  let b1 := { b with subscribers := b.subscribers.erase ch }
  if ch ∈ b1.closed then { b1 with panicked := true }
  else { b1 with closed := insert ch b1.closed }

/-- One spawned goroutine runs its body `ch <- msg` to the end. On a closed
channel the send panics; on an open one it completes when the subscriber
receives, which appends to `received`. A goroutine that does not exist does
nothing. -/
def Deliver (b : Broker) (ch : Chan) (msg : String) : Broker :=
  if (ch, msg) ∈ b.sending then
    let b1 := { b with sending := b.sending.erase (ch, msg) }
    if ch ∈ b1.closed then { b1 with panicked := true }
    else { b1 with received := b1.received ++ [(ch, msg)] }
  else b

/-- What the scheduler can do next: a call of one of the three methods, or
letting one pending send goroutine run. -/
inductive Action
  | subscribe
  | publish (msg : String)
  | unsubscribe (ch : Chan)
  | deliver (ch : Chan) (msg : String)
deriving DecidableEq

/-- One scheduler step. A process that has panicked takes no further step. -/
def step (b : Broker) (a : Action) : Broker :=
  if b.panicked then b
  else
    match a with
    | Action.subscribe => (Subscribe b).2
    | Action.publish msg => Publish b msg
    | Action.unsubscribe ch => Unsubscribe b ch
    | Action.deliver ch msg => Deliver b ch msg

/-- A schedule: the steps taken one after the other. -/
def run (b : Broker) (acts : List Action) : Broker :=
  acts.foldl step b

/-- The messages subscriber `ch` has received, in order of receipt. -/
def recvOf (b : Broker) (ch : Chan) : List String :=
  (b.received.filter (fun p => p.1 = ch)).map Prod.snd

/-- Number of goroutines still trying to send `msg` on `ch`. -/
def pendingCount (b : Broker) (ch : Chan) (msg : String) : Nat :=
  b.sending.count (ch, msg)

/-- Every channel the state mentions has been allocated by `make`. -/
def WF (b : Broker) : Prop :=
  (∀ ch ∈ b.subscribers, ch < b.nextChan) ∧
  (∀ ch ∈ b.closed, ch < b.nextChan) ∧
  (∀ p ∈ b.sending, p.1 < b.nextChan) ∧
  (∀ p ∈ b.received, p.1 < b.nextChan)

/-- Membership tests over finite sets make `WF` decidable. -/
instance (b : Broker) : Decidable (WF b) := by
  unfold WF
  infer_instance

/-- The facts about an unsubscribed channel that every later step keeps. -/
def Gone (S : Chan) (b : Broker) : Prop :=
  S ∉ b.subscribers ∧ S ∈ b.closed ∧ S < b.nextChan

/-- An action only names channels that exist. -/
def Allocated (b : Broker) : Action → Prop
  | Action.unsubscribe ch => ch < b.nextChan
  | _ => True

/-- States the program can be in: start at `NewBroker`, take scheduler steps. -/
inductive Reachable : Broker → Prop
  | init : Reachable NewBroker
  | next (b : Broker) (a : Action) : Reachable b → Allocated b a → Reachable (step b a)

end pubsub

namespace golang

/-- Go `error` values: `new` is `errors.New` or a `fmt.Errorf` without `%w`,
`wrap pre inner` is `fmt.Errorf(pre + "%w", inner)`. A nil error is `none`. -/
inductive GoError
  | new (msg : String)
  | wrap (pre : String) (inner : GoError)
deriving DecidableEq, Repr

/-- The method `Error()`. -/
def GoError.Error : GoError → String
  | GoError.new msg => msg
  | GoError.wrap pre inner => pre ++ inner.Error

/-- The function `errors.Unwrap`. -/
def GoError.Unwrap : GoError → Option GoError
  | GoError.new _ => none
  | GoError.wrap _ inner => some inner

end golang

namespace facade

open golang

/-- The struct `BaseBankApi`. -/
structure BaseBankApi where
  AccountNo : String
  Bank : String
  Pin : String
  Token : String
deriving DecidableEq, Repr

/-- Source `BaseBankApi.Login`: sets the token when account, pin and bank all match. -/
def BaseBankApi.Login (b : BaseBankApi) (validAccount validPin validBank : String) :
    BaseBankApi × Option GoError :=
  if b.AccountNo = validAccount ∧ b.Pin = validPin ∧ b.Bank = validBank then
    ({ b with Token := "valid-token" }, none)
  else
    (b, some (GoError.new ("invalid account details for bank: " ++ b.Bank)))

/-- Source `BaseBankApi.IsLoggedIn`. -/
def BaseBankApi.IsLoggedIn (b : BaseBankApi) : Bool :=
  b.Token = "valid-token"

/-- The struct `SiamBankApi`, which embeds `BaseBankApi`. -/
structure SiamBankApi where
  base : BaseBankApi
deriving DecidableEq, Repr

/-- Source `NewSiamBankApi`. -/
def NewSiamBankApi (accountNo bank pin : String) : SiamBankApi :=
  { base := { AccountNo := accountNo, Bank := bank, Pin := pin, Token := "" } }

/-- Source `SiamBankApi.Login`. -/
def SiamBankApi.Login (s : SiamBankApi) : SiamBankApi × Option GoError :=
  let r := s.base.Login "0123456789" "1234" "SiamBank"
  ({ base := r.1 }, r.2)

/-- Source `SiamBankApi.Transfer`; the amount is only printed, so its type is left open. -/
def SiamBankApi.Transfer {A : Type} (s : SiamBankApi) (_toAcc _toBank : String) (_amount : A) :
    String × Option GoError :=
  if !s.base.IsLoggedIn then ("", some (GoError.new "please login first"))
  else ("valid-confirm-token", none)

/-- Source `SiamBankApi.Confirm`. -/
def SiamBankApi.Confirm (s : SiamBankApi) (confToken : String) : Option GoError :=
  if !s.base.IsLoggedIn then some (GoError.new "please login first")
  else if confToken ≠ "valid-confirm-token" then some (GoError.new "invalid confirmation token")
  else none

/-- The struct `KBankApi`, which embeds `BaseBankApi`. -/
structure KBankApi where
  base : BaseBankApi
deriving DecidableEq, Repr

/-- Source `NewKBankApi`. -/
def NewKBankApi (accountNo bank pin : String) : KBankApi :=
  { base := { AccountNo := accountNo, Bank := bank, Pin := pin, Token := "" } }

/-- Source `KBankApi.Login`. -/
def KBankApi.Login (k : KBankApi) : KBankApi × Option GoError :=
  let r := k.base.Login "0123456789" "1234" "KBank"
  ({ base := r.1 }, r.2)

/-- Source `KBankApi.Transfer`; the amount is only printed, so its type is left open. -/
def KBankApi.Transfer {A : Type} (k : KBankApi) (_toAcc _toBank : String) (_amount : A) :
    String × Option GoError :=
  if !k.base.IsLoggedIn then ("", some (GoError.new "please login first"))
  else ("valid-confirm-token", none)

/-- Source `KBankApi.Confirm`. -/
def KBankApi.Confirm (k : KBankApi) (confToken : String) : Option GoError :=
  if !k.base.IsLoggedIn then some (GoError.new "please login first")
  else if confToken ≠ "valid-confirm-token" then some (GoError.new "invalid confirmation token")
  else none

/-- The interface `BankApi`, with its two implementations. -/
inductive BankApi
  | siam (s : SiamBankApi)
  | kbank (k : KBankApi)
deriving DecidableEq, Repr

/-- Dynamic dispatch of `Login`. -/
def BankApi.Login : BankApi → BankApi × Option GoError
  | BankApi.siam s => (BankApi.siam s.Login.1, s.Login.2)
  | BankApi.kbank k => (BankApi.kbank k.Login.1, k.Login.2)

/-- Dynamic dispatch of `Transfer`. -/
def BankApi.Transfer {A : Type} (api : BankApi) (toAcc toBank : String) (amount : A) :
    String × Option GoError :=
  match api with
  | BankApi.siam s => s.Transfer toAcc toBank amount
  | BankApi.kbank k => k.Transfer toAcc toBank amount

/-- Dynamic dispatch of `Confirm`. -/
def BankApi.Confirm : BankApi → String → Option GoError
  | BankApi.siam s, confToken => s.Confirm confToken
  | BankApi.kbank k, confToken => k.Confirm confToken

/-- Dynamic dispatch of `IsLoggedIn`. -/
def BankApi.IsLoggedIn : BankApi → Bool
  | BankApi.siam s => s.base.IsLoggedIn
  | BankApi.kbank k => k.base.IsLoggedIn

/-- The struct `BankTransferFacade`: `banks` maps a bank name to the constructor
of its API, held as an association list (first match wins). -/
structure BankTransferFacade where
  banks : List (String × (String → String → String → BankApi))

/-- Source `NewBankTransferFacade`: registers `SiamBank` and `KBank`. -/
def NewBankTransferFacade : BankTransferFacade :=
  { banks :=
      [("SiamBank", fun accountNo bank pin => BankApi.siam (NewSiamBankApi accountNo bank pin)),
       ("KBank", fun accountNo bank pin => BankApi.kbank (NewKBankApi accountNo bank pin))] }

/-- A method of the `BankApi` object that `BankTransferFacade.Transfer` invoked. -/
inductive Call (A : Type)
  | Login
  | Transfer (toAcc toBank : String) (amount : A)
  | Confirm (confToken : String)
deriving DecidableEq, Repr

/-- Source `BankTransferFacade.Transfer`: returns the error (`none` is nil) together
with the `BankApi` methods it invoked, in order. -/
def BankTransferFacade.Transfer {A : Type} (f : BankTransferFacade)
    (accountNo pin fromBank toAcc toBank : String) (amount : A) :
    Option GoError × List (Call A) :=
  match f.banks.lookup fromBank with
  | none => (some (GoError.new ("unsupported bank: " ++ fromBank)), [])
  | some bankFactory =>
    let bankApi := bankFactory accountNo fromBank pin
    match bankApi.Login with
    | (_, some err) => (some (GoError.wrap "login failed: " err), [Call.Login])
    | (bankApi, none) =>
      match bankApi.Transfer toAcc toBank amount with
      | (_, some err) =>
        (some (GoError.wrap "transfer failed: " err),
          [Call.Login, Call.Transfer toAcc toBank amount])
      | (confToken, none) =>
        match bankApi.Confirm confToken with
        | some err =>
          (some (GoError.wrap "confirmation failed: " err),
            [Call.Login, Call.Transfer toAcc toBank amount, Call.Confirm confToken])
        | none =>
          (none, [Call.Login, Call.Transfer toAcc toBank amount, Call.Confirm confToken])

end facade

namespace factorymethod

open golang

/-- The struct `DeviceSpecs`. -/
structure DeviceSpecs where
  RAM : String
  Storage : String
  CPU : String
  Platform : String
deriving DecidableEq, Repr

/-- The struct `BaseDevice`. -/
structure BaseDevice where
  specs : DeviceSpecs
deriving DecidableEq, Repr

/-- The struct `AndroidDevice`, which embeds `BaseDevice`. -/
structure AndroidDevice where
  base : BaseDevice
  googleServices : Bool
deriving DecidableEq, Repr

/-- Source `NewAndroidDevice`: `specs` is passed by value, so the default platform is
written to the callee's copy only. -/
def NewAndroidDevice (specs : DeviceSpecs) : AndroidDevice :=
  let specs := if specs.Platform = "" then { specs with Platform := "Android 13.0" } else specs
  { base := { specs := specs }, googleServices := true }

/-- Source `AndroidDevice.GetPlatform`. -/
def AndroidDevice.GetPlatform (d : AndroidDevice) : String := d.base.specs.Platform

/-- Source `AndroidDevice.GetSpecs`. -/
def AndroidDevice.GetSpecs (d : AndroidDevice) : DeviceSpecs := d.base.specs

/-- Source `AndroidDevice.Update`: the device after the call and the error. -/
def AndroidDevice.Update (d : AndroidDevice) (newVersion : String) :
    AndroidDevice × Option GoError :=
  if !d.googleServices then
    (d, some (GoError.new "cannot update: Google Services not available"))
  else
    ({ d with base := { specs := { d.base.specs with Platform := "Android " ++ newVersion } } },
      none)

/-- Source `AndroidDevice.InstallApp`: the device after the call and the error. -/
def AndroidDevice.InstallApp (d : AndroidDevice) (_appName : String) :
    AndroidDevice × Option GoError :=
  if !d.googleServices then
    (d, some (GoError.new "cannot install app: Google Play Store not available"))
  else (d, none)

/-- The struct `IosDevice`, which embeds `BaseDevice`. -/
structure IosDevice where
  base : BaseDevice
  appleID : String
deriving DecidableEq, Repr

/-- Source `NewIosDevice`: `specs` is passed by value. -/
def NewIosDevice (specs : DeviceSpecs) : IosDevice :=
  let specs := if specs.Platform = "" then { specs with Platform := "iOS 16.0" } else specs
  { base := { specs := specs }, appleID := "" }

/-- Source `IosDevice.GetPlatform`. -/
def IosDevice.GetPlatform (d : IosDevice) : String := d.base.specs.Platform

/-- Source `IosDevice.GetSpecs`. -/
def IosDevice.GetSpecs (d : IosDevice) : DeviceSpecs := d.base.specs

/-- Source `IosDevice.Update`: the device after the call and the error. -/
def IosDevice.Update (d : IosDevice) (newVersion : String) : IosDevice × Option GoError :=
  if d.appleID = "" then
    (d, some (GoError.new "cannot update: Apple ID not configured"))
  else
    ({ d with base := { specs := { d.base.specs with Platform := "iOS " ++ newVersion } } }, none)

/-- Source `IosDevice.InstallApp`: the device after the call and the error. -/
def IosDevice.InstallApp (d : IosDevice) (_appName : String) : IosDevice × Option GoError :=
  if d.appleID = "" then
    (d, some (GoError.new "cannot install app: Apple ID not configured"))
  else (d, none)

/-- The interface `MobileDevice`, with its two implementations. -/
inductive MobileDevice
  | android (d : AndroidDevice)
  | ios (d : IosDevice)
deriving DecidableEq, Repr

/-- Dynamic dispatch of `GetPlatform`. -/
def MobileDevice.GetPlatform : MobileDevice → String
  | MobileDevice.android d => d.GetPlatform
  | MobileDevice.ios d => d.GetPlatform

/-- Dynamic dispatch of `GetSpecs`. -/
def MobileDevice.GetSpecs : MobileDevice → DeviceSpecs
  | MobileDevice.android d => d.GetSpecs
  | MobileDevice.ios d => d.GetSpecs

/-- Dynamic dispatch of `Update`. -/
def MobileDevice.Update : MobileDevice → String → MobileDevice × Option GoError
  | MobileDevice.android d, v => (MobileDevice.android (d.Update v).1, (d.Update v).2)
  | MobileDevice.ios d, v => (MobileDevice.ios (d.Update v).1, (d.Update v).2)

/-- Dynamic dispatch of `InstallApp`. -/
def MobileDevice.InstallApp : MobileDevice → String → MobileDevice × Option GoError
  | MobileDevice.android d, a => (MobileDevice.android (d.InstallApp a).1, (d.InstallApp a).2)
  | MobileDevice.ios d, a => (MobileDevice.ios (d.InstallApp a).1, (d.InstallApp a).2)

/-- The type `DeviceType`, a string. -/
abbrev DeviceType := String

/-- The constant `Android`. -/
def Android : DeviceType := "Android"

/-- The constant `IOS`. -/
def IOS : DeviceType := "iOS"

/-- The struct `DeviceFactory`. -/
structure DeviceFactory where
  defaultSpecs : DeviceSpecs
deriving DecidableEq, Repr

/-- Source `NewDeviceFactory`. -/
def NewDeviceFactory (defaultSpecs : DeviceSpecs) : DeviceFactory :=
  { defaultSpecs := defaultSpecs }

/-- What a call of `CreateDevice` leaves behind: the two return values, and the
memory behind its two pointer arguments `f` and `specs` after the call. -/
structure Created where
  device : Option MobileDevice
  err : Option GoError
  factory : DeviceFactory
  specs : Option DeviceSpecs
deriving DecidableEq, Repr

/-- Source `DeviceFactory.CreateDevice`; a nil `specs` pointer is `none`. The body only
reads `f.defaultSpecs` and `*specs` into the local `finalSpecs`. -/
def DeviceFactory.CreateDevice (f : DeviceFactory) (deviceType : DeviceType)
    (specs : Option DeviceSpecs) : Created :=
  let finalSpecs := match specs with
    | some s => s
    | none => f.defaultSpecs
  if deviceType = Android then
    { device := some (MobileDevice.android (NewAndroidDevice finalSpecs)), err := none,
      factory := f, specs := specs }
  else if deviceType = IOS then
    { device := some (MobileDevice.ios (NewIosDevice finalSpecs)), err := none,
      factory := f, specs := specs }
  else
    { device := none, err := some (GoError.new ("unsupported device type: " ++ deviceType)),
      factory := f, specs := specs }

end factorymethod

/-! ## Theorems -/

namespace pubsub

/-! ### Helper lemmas on the broker model -/

lemma count_fanout (subs : Finset Chan) (msg : String) (ch : Chan) (m : String) :
    Multiset.count (ch, m) (subs.val.map (fun c => (c, msg)))
      = if ch ∈ subs ∧ m = msg then 1 else 0 := by
  have hinj : Function.Injective (fun c : Chan => (c, msg)) := by
    intro x y hxy
    exact congrArg Prod.fst hxy
  have hnd : (subs.val.map (fun c => (c, msg))).Nodup := Multiset.Nodup.map hinj subs.nodup
  rw [Multiset.count_eq_of_nodup hnd]
  have hmem : (ch, m) ∈ subs.val.map (fun c => (c, msg)) ↔ (ch ∈ subs ∧ m = msg) := by
    simp only [Multiset.mem_map, Finset.mem_val, Prod.mk.injEq]
    constructor
    · rintro ⟨c, hc, rfl, rfl⟩
      exact ⟨hc, rfl⟩
    · rintro ⟨hc, rfl⟩
      exact ⟨ch, hc, rfl, rfl⟩
  by_cases h : ch ∈ subs ∧ m = msg
  · rw [if_pos (hmem.mpr h), if_pos h]
  · rw [if_neg (fun h2 => h (hmem.mp h2)), if_neg h]

lemma pendingCount_Publish (b : Broker) (msg : String) (ch : Chan) (m : String) :
    pendingCount (Publish b msg) ch m
      = pendingCount b ch m + (if ch ∈ b.subscribers ∧ m = msg then 1 else 0) := by
  unfold pendingCount Publish
  simp only [Multiset.count_add]
  rw [count_fanout]

lemma WF_NewBroker : WF NewBroker := by
  refine ⟨?_, ?_, ?_, ?_⟩ <;> intro x hx <;> simp [NewBroker] at hx

lemma WF_Subscribe (b : Broker) (h : WF b) : WF (Subscribe b).2 := by
  obtain ⟨h1, h2, h3, h4⟩ := h
  refine ⟨?_, ?_, ?_, ?_⟩
  · intro ch hch
    simp only [Subscribe, Finset.mem_insert] at hch
    rcases hch with rfl | hch
    · exact Nat.lt_succ_self _
    · exact Nat.lt_succ_of_lt (h1 ch hch)
  · intro ch hch
    exact Nat.lt_succ_of_lt (h2 ch hch)
  · intro p hp
    exact Nat.lt_succ_of_lt (h3 p hp)
  · intro p hp
    exact Nat.lt_succ_of_lt (h4 p hp)

lemma WF_Publish (b : Broker) (msg : String) (h : WF b) : WF (Publish b msg) := by
  obtain ⟨h1, h2, h3, h4⟩ := h
  refine ⟨h1, h2, ?_, h4⟩
  intro p hp
  simp only [Publish, Multiset.mem_add, Multiset.mem_map, Finset.mem_val] at hp
  rcases hp with hp | ⟨c, hc, rfl⟩
  · exact h3 p hp
  · exact h1 c hc

lemma WF_Unsubscribe (b : Broker) (ch : Chan) (h : WF b) (hch : ch < b.nextChan) :
    WF (Unsubscribe b ch) := by
  obtain ⟨h1, h2, h3, h4⟩ := h
  unfold Unsubscribe
  by_cases hc : ch ∈ b.closed
  · simp only [hc, if_true]
    refine ⟨?_, h2, h3, h4⟩
    intro c hc2
    exact h1 c (Finset.mem_of_mem_erase hc2)
  · simp only [hc, if_false]
    refine ⟨?_, ?_, h3, h4⟩
    · intro c hc2
      exact h1 c (Finset.mem_of_mem_erase hc2)
    · intro c hc2
      simp only [Finset.mem_insert] at hc2
      rcases hc2 with rfl | hc2
      · exact hch
      · exact h2 c hc2

lemma WF_Deliver (b : Broker) (ch : Chan) (msg : String) (h : WF b) :
    WF (Deliver b ch msg) := by
  obtain ⟨h1, h2, h3, h4⟩ := h
  unfold Deliver
  by_cases hm : (ch, msg) ∈ b.sending
  · have h3e : ∀ p ∈ b.sending.erase (ch, msg), p.1 < b.nextChan :=
      fun p hp => h3 p (Multiset.mem_of_mem_erase hp)
    by_cases hc : ch ∈ b.closed
    · simp only [hm, hc, if_true]
      exact ⟨h1, h2, h3e, h4⟩
    · simp only [hm, hc, if_true, if_false]
      refine ⟨h1, h2, h3e, ?_⟩
      intro p hp
      simp only [List.mem_append, List.mem_singleton] at hp
      rcases hp with hp | rfl
      · exact h4 p hp
      · exact h3 (ch, msg) hm
  · simp only [hm, if_false]
    exact ⟨h1, h2, h3, h4⟩

lemma step_panicked (b : Broker) (a : Action) (h : b.panicked = true) : step b a = b := by
  simp [step, h]

lemma step_subscribe (b : Broker) (h : b.panicked = false) :
    step b Action.subscribe = (Subscribe b).2 := by
  simp [step, h]

lemma step_publish (b : Broker) (msg : String) (h : b.panicked = false) :
    step b (Action.publish msg) = Publish b msg := by
  simp [step, h]

lemma step_unsubscribe (b : Broker) (ch : Chan) (h : b.panicked = false) :
    step b (Action.unsubscribe ch) = Unsubscribe b ch := by
  simp [step, h]

lemma step_deliver (b : Broker) (ch : Chan) (msg : String) (h : b.panicked = false) :
    step b (Action.deliver ch msg) = Deliver b ch msg := by
  simp [step, h]

lemma WF_step (b : Broker) (a : Action) (h : WF b) (ha : Allocated b a) : WF (step b a) := by
  cases hp : b.panicked with
  | true => rw [step_panicked b a hp]; exact h
  | false =>
    cases a with
    | subscribe => rw [step_subscribe b hp]; exact WF_Subscribe b h
    | publish msg => rw [step_publish b msg hp]; exact WF_Publish b msg h
    | unsubscribe ch => rw [step_unsubscribe b ch hp]; exact WF_Unsubscribe b ch h ha
    | deliver ch msg => rw [step_deliver b ch msg hp]; exact WF_Deliver b ch msg h

/-- Every reachable state is well formed. -/
lemma Reachable.wf {b : Broker} (h : Reachable b) : WF b := by
  induction h with
  | init => exact WF_NewBroker
  | next b a _ ha ih => exact WF_step b a ih ha

lemma run_nil (b : Broker) : run b [] = b := rfl

lemma run_cons (b : Broker) (a : Action) (acts : List Action) :
    run b (a :: acts) = run (step b a) acts := rfl

end pubsub

namespace pubsub

/-! ### Invariants of schedules -/

lemma step_received (b : Broker) (a : Action) : ∃ l, (step b a).received = b.received ++ l := by
  cases hp : b.panicked with
  | true => exact ⟨[], by rw [step_panicked b a hp, List.append_nil]⟩
  | false =>
    cases a with
    | subscribe => exact ⟨[], by rw [step_subscribe b hp]; simp [Subscribe]⟩
    | publish msg => exact ⟨[], by rw [step_publish b msg hp]; simp [Publish]⟩
    | unsubscribe ch =>
      refine ⟨[], ?_⟩
      rw [step_unsubscribe b ch hp]
      unfold Unsubscribe
      by_cases hc : ch ∈ b.closed <;> simp [hc]
    | deliver ch msg =>
      rw [step_deliver b ch msg hp]
      unfold Deliver
      by_cases hm : (ch, msg) ∈ b.sending
      · by_cases hc : ch ∈ b.closed
        · exact ⟨[], by simp [hm, hc]⟩
        · exact ⟨[(ch, msg)], by simp [hm, hc]⟩
      · exact ⟨[], by simp [hm]⟩

lemma run_received (acts : List Action) :
    ∀ b : Broker, ∃ l, (run b acts).received = b.received ++ l := by
  induction acts with
  | nil => intro b; exact ⟨[], by simp [run_nil]⟩
  | cons a acts ih =>
    intro b
    obtain ⟨l1, h1⟩ := step_received b a
    obtain ⟨l2, h2⟩ := ih (step b a)
    exact ⟨l1 ++ l2, by rw [run_cons, h2, h1, List.append_assoc]⟩

lemma recvOf_run (b : Broker) (acts : List Action) (ch : Chan) :
    ∃ later, recvOf (run b acts) ch = recvOf b ch ++ later := by
  obtain ⟨l, hl⟩ := run_received acts b
  exact ⟨(l.filter (fun p => p.1 = ch)).map Prod.snd, by
    simp [recvOf, hl, List.filter_append, List.map_append]⟩

lemma Gone_step (S : Chan) (b : Broker) (a : Action) (h : Gone S b) :
    Gone S (step b a) ∧ (∀ m, pendingCount (step b a) S m ≤ pendingCount b S m) ∧
      recvOf (step b a) S = recvOf b S := by
  obtain ⟨h1, h2, h3⟩ := h
  cases hp : b.panicked with
  | true =>
    rw [step_panicked b a hp]
    exact ⟨⟨h1, h2, h3⟩, fun m => le_refl _, rfl⟩
  | false =>
    cases a with
    | subscribe =>
      rw [step_subscribe b hp]
      refine ⟨⟨?_, h2, Nat.lt_succ_of_lt h3⟩, fun m => le_refl _, rfl⟩
      simp only [Subscribe, Finset.mem_insert, not_or]
      exact ⟨Nat.ne_of_lt h3, h1⟩
    | publish msg =>
      rw [step_publish b msg hp]
      refine ⟨⟨h1, h2, h3⟩, ?_, rfl⟩
      intro m
      rw [pendingCount_Publish]
      simp [h1]
    | unsubscribe ch =>
      rw [step_unsubscribe b ch hp]
      unfold Unsubscribe
      by_cases hc : ch ∈ b.closed
      · simp only [hc, if_true]
        refine ⟨⟨?_, h2, h3⟩, fun m => le_refl _, rfl⟩
        exact fun hmem => h1 (Finset.mem_of_mem_erase hmem)
      · simp only [hc, if_false]
        refine ⟨⟨?_, ?_, h3⟩, fun m => le_refl _, rfl⟩
        · exact fun hmem => h1 (Finset.mem_of_mem_erase hmem)
        · exact Finset.mem_insert_of_mem h2
    | deliver ch msg =>
      rw [step_deliver b ch msg hp]
      unfold Deliver
      by_cases hm : (ch, msg) ∈ b.sending
      · have hle : ∀ m, Multiset.count (S, m) (b.sending.erase (ch, msg))
            ≤ Multiset.count (S, m) b.sending :=
          fun m => Multiset.count_le_of_le _ (Multiset.erase_le _ _)
        by_cases hc : ch ∈ b.closed
        · simp only [hm, hc, if_true]
          exact ⟨⟨h1, h2, h3⟩, hle, rfl⟩
        · simp only [hm, hc, if_true, if_false]
          refine ⟨⟨h1, h2, h3⟩, hle, ?_⟩
          have hne : ch ≠ S := fun e => hc (e ▸ h2)
          simp [recvOf, List.filter_append, hne]
      · rw [if_neg hm]
        exact ⟨⟨h1, h2, h3⟩, fun m => le_refl _, rfl⟩

lemma Gone_run (S : Chan) (acts : List Action) :
    ∀ b : Broker, Gone S b →
      Gone S (run b acts) ∧ (∀ m, pendingCount (run b acts) S m ≤ pendingCount b S m) ∧
        recvOf (run b acts) S = recvOf b S := by
  induction acts with
  | nil => intro b h; exact ⟨h, fun m => le_refl _, rfl⟩
  | cons a acts ih =>
    intro b h
    obtain ⟨g1, c1, r1⟩ := Gone_step S b a h
    obtain ⟨g2, c2, r2⟩ := ih (step b a) g1
    rw [run_cons]
    exact ⟨g2, fun m => le_trans (c2 m) (c1 m), r2.trans r1⟩

lemma Gone_Unsubscribe (b : Broker) (S : Chan) (hS : S < b.nextChan) :
    Gone S (Unsubscribe b S) := by
  unfold Unsubscribe
  by_cases hc : S ∈ b.closed
  · simp only [hc, if_true]
    exact ⟨Finset.not_mem_erase S _, hc, hS⟩
  · simp only [hc, if_false]
    exact ⟨Finset.not_mem_erase S _, Finset.mem_insert_self S _, hS⟩

end pubsub

namespace pubsub

/-! ### The claims about the broker -/

/-- C1 (closed-send safety) fails on the code: after `Subscribe`, `Publish "m"`
and `Unsubscribe` of that subscription nothing has panicked, the goroutine that
`Publish` spawned is still pending on the channel that `Unsubscribe` closed, and
when that goroutine runs its send the process panics. -/
theorem closed_send_panics :
    (run NewBroker [Action.subscribe, Action.publish "m", Action.unsubscribe 0]).panicked = false ∧
    pendingCount (run NewBroker [Action.subscribe, Action.publish "m", Action.unsubscribe 0])
      0 "m" = 1 ∧
    0 ∈ (run NewBroker [Action.subscribe, Action.publish "m", Action.unsubscribe 0]).closed ∧
    (run NewBroker [Action.subscribe, Action.publish "m", Action.unsubscribe 0,
      Action.deliver 0 "m"]).panicked = true := by
  decide

/-- C2 as stated is false: on the channel returned by `Subscribe` of a new
broker the first `Unsubscribe` does not panic and the second one does. -/
theorem unsubscribe_twice_panics :
    (Unsubscribe (Subscribe NewBroker).2 (Subscribe NewBroker).1).panicked = false ∧
    (Unsubscribe (Unsubscribe (Subscribe NewBroker).2 (Subscribe NewBroker).1)
      (Subscribe NewBroker).1).panicked = true := by
  decide

/-- C2 amended: a second `Unsubscribe` of the same channel leaves the registry
exactly as the first call left it, and the channel is not registered. -/
theorem unsubscribe_twice_registry (b : Broker) (ch : Chan) :
    (Unsubscribe (Unsubscribe b ch) ch).subscribers = (Unsubscribe b ch).subscribers ∧
    ch ∉ (Unsubscribe (Unsubscribe b ch) ch).subscribers := by
  have h1 : ∀ b : Broker, (Unsubscribe b ch).subscribers = b.subscribers.erase ch := by
    intro b
    unfold Unsubscribe
    by_cases hc : ch ∈ b.closed <;> simp [hc]
  rw [h1 (Unsubscribe b ch), h1 b]
  refine ⟨?_, Finset.not_mem_erase ch _⟩
  exact Finset.erase_eq_of_not_mem (Finset.not_mem_erase ch _)

/-- C3 as stated is false: with one registered subscriber, `Publish "m1"` then
`Publish "m2"`, the schedule that runs the second goroutine first makes the
subscriber receive "m2" before "m1", while it stays registered and nothing
panics. -/
theorem fifo_reordered :
    recvOf (run NewBroker [Action.subscribe, Action.publish "m1", Action.publish "m2",
      Action.deliver 0 "m2", Action.deliver 0 "m1"]) 0 = ["m2", "m1"] ∧
    0 ∈ (run NewBroker [Action.subscribe, Action.publish "m1", Action.publish "m2",
      Action.deliver 0 "m2", Action.deliver 0 "m1"]).subscribers ∧
    (run NewBroker [Action.subscribe, Action.publish "m1", Action.publish "m2",
      Action.deliver 0 "m2", Action.deliver 0 "m1"]).panicked = false := by
  decide

/-- C3 amended: if subscriber `S` is registered and open and has already
received `m1` when `Publish m2` is called, then in every schedule everything `S`
had received stays, in order, at the front of what `S` receives afterwards, and
the delivery of `m2` that this `Publish` started is received right behind it
when it is the next to complete. -/
theorem received_order_kept (b : Broker) (S : Chan) (m1 m2 : String)
    (hS : S ∈ b.subscribers) (hopen : S ∉ b.closed) (hp : b.panicked = false)
    (h1 : m1 ∈ recvOf b S) :
    (∀ acts : List Action, ∃ later,
      recvOf (run (step b (Action.publish m2)) acts) S = recvOf b S ++ later ∧
      m1 ∈ (recvOf (run (step b (Action.publish m2)) acts) S).take (recvOf b S).length) ∧
    recvOf (run (step b (Action.publish m2)) [Action.deliver S m2]) S = recvOf b S ++ [m2] := by
  constructor
  · intro acts
    obtain ⟨later, hl⟩ := recvOf_run (step b (Action.publish m2)) acts S
    have hpub : recvOf (step b (Action.publish m2)) S = recvOf b S := by
      rw [step_publish b m2 hp]
      rfl
    rw [hpub] at hl
    refine ⟨later, hl, ?_⟩
    rw [hl, List.take_left]
    exact h1
  · have hmem : (S, m2) ∈ (Publish b m2).sending := by
      simp only [Publish, Multiset.mem_add, Multiset.mem_map, Finset.mem_val]
      exact Or.inr ⟨S, hS, rfl⟩
    have hc : S ∉ (Publish b m2).closed := hopen
    have hp2 : (Publish b m2).panicked = false := hp
    rw [run_cons, run_nil, step_publish b m2 hp, step_deliver _ S m2 hp2]
    unfold Deliver
    rw [if_pos hmem]
    simp only []
    rw [if_neg hc]
    simp [recvOf, Publish, List.filter_append]

/-- Witness for `received_order_kept`: after `Subscribe`, `Publish "m1"` and its
delivery, `Publish "m2"` followed by its delivery yields "m1" then "m2". -/
theorem received_order_kept_witness :
    recvOf (run (step (run NewBroker [Action.subscribe, Action.publish "m1",
        Action.deliver 0 "m1"]) (Action.publish "m2")) [Action.deliver 0 "m2"]) 0
      = recvOf (run NewBroker [Action.subscribe, Action.publish "m1",
        Action.deliver 0 "m1"]) 0 ++ ["m2"] :=
  (received_order_kept (run NewBroker [Action.subscribe, Action.publish "m1",
    Action.deliver 0 "m1"]) 0 "m1" "m2" (by decide) (by decide) (by decide) (by decide)).2

/-- C4: `Publish msg` leaves the registry unchanged and starts exactly one send
of `msg` on each registered channel and no other send: the number of pending
sends of `m` on `ch` grows by one when `ch` is registered and `m = msg`, and
stays the same otherwise. -/
theorem publish_fanout_exact (b : Broker) (msg : String) :
    (Publish b msg).subscribers = b.subscribers ∧
    (∀ ch ∈ b.subscribers, pendingCount (Publish b msg) ch msg = pendingCount b ch msg + 1) ∧
    (∀ ch m, ch ∉ b.subscribers → pendingCount (Publish b msg) ch m = pendingCount b ch m) ∧
    (∀ ch m, m ≠ msg → pendingCount (Publish b msg) ch m = pendingCount b ch m) ∧
    Multiset.card (Publish b msg).sending = Multiset.card b.sending + b.subscribers.card := by
  refine ⟨rfl, ?_, ?_, ?_, ?_⟩
  · intro ch hch
    rw [pendingCount_Publish]
    simp [hch]
  · intro ch m hch
    rw [pendingCount_Publish]
    simp [hch]
  · intro ch m hm
    rw [pendingCount_Publish]
    simp [hm]
  · unfold Publish
    rw [Multiset.card_add, Multiset.card_map]
    rfl

/-- C5: once a registered subscription `S` has been unsubscribed it is out of the
registry and its channel is closed, and after any later schedule of steps it is
still so, no `Publish` starts a send on `S`, the sends pending on `S` do not grow
in number and `S` receives nothing more. -/
theorem unsubscribe_ends_delivery (b : Broker) (S : Chan) (hwf : WF b)
    (hS : S ∈ b.subscribers) :
    S ∉ (Unsubscribe b S).subscribers ∧ S ∈ (Unsubscribe b S).closed ∧
    ∀ acts : List Action,
      S ∉ (run (Unsubscribe b S) acts).subscribers ∧
      S ∈ (run (Unsubscribe b S) acts).closed ∧
      (∀ msg m, pendingCount (Publish (run (Unsubscribe b S) acts) msg) S m
        = pendingCount (run (Unsubscribe b S) acts) S m) ∧
      (∀ m, pendingCount (run (Unsubscribe b S) acts) S m
        ≤ pendingCount (Unsubscribe b S) S m) ∧
      recvOf (run (Unsubscribe b S) acts) S = recvOf (Unsubscribe b S) S := by
  have hg : Gone S (Unsubscribe b S) := Gone_Unsubscribe b S (hwf.1 S hS)
  refine ⟨hg.1, hg.2.1, ?_⟩
  intro acts
  obtain ⟨g, c, r⟩ := Gone_run S acts (Unsubscribe b S) hg
  refine ⟨g.1, g.2.1, ?_, c, r⟩
  intro msg m
  rw [pendingCount_Publish]
  simp [g.1]

/-- Witness for `unsubscribe_ends_delivery`: with subscriptions 0 and 1
registered, after `Unsubscribe 0` a `Publish "m3"` starts no send on 0. -/
theorem unsubscribe_ends_delivery_witness :
    pendingCount (Publish (run (Unsubscribe (run NewBroker [Action.subscribe, Action.subscribe]) 0)
        []) "m3") 0 "m3"
      = pendingCount (run (Unsubscribe (run NewBroker [Action.subscribe, Action.subscribe]) 0)
        []) 0 "m3" :=
  ((unsubscribe_ends_delivery (run NewBroker [Action.subscribe, Action.subscribe]) 0
    (by decide) (by decide)).2.2 []).2.2.1 "m3" "m3"

/-- C6: in a well-formed state `Subscribe` returns a channel that was not
registered, has no pending send and no received message, and is open; the new
registry is the old one plus that channel, so every old subscription is still
registered and the size grows by one. -/
theorem subscribe_fresh (b : Broker) (hwf : WF b) :
    (Subscribe b).1 ∉ b.subscribers ∧
    (∀ m, pendingCount (Subscribe b).2 (Subscribe b).1 m = 0) ∧
    recvOf (Subscribe b).2 (Subscribe b).1 = [] ∧
    (Subscribe b).1 ∉ (Subscribe b).2.closed ∧
    (Subscribe b).2.subscribers = insert (Subscribe b).1 b.subscribers ∧
    b.subscribers ⊆ (Subscribe b).2.subscribers ∧
    (Subscribe b).2.subscribers.card = b.subscribers.card + 1 := by
  obtain ⟨h1, h2, h3, h4⟩ := hwf
  have hfresh : b.nextChan ∉ b.subscribers := fun h => Nat.lt_irrefl _ (h1 _ h)
  refine ⟨hfresh, ?_, ?_, ?_, rfl, ?_, ?_⟩
  · intro m
    unfold pendingCount
    rw [Multiset.count_eq_zero]
    exact fun h => Nat.lt_irrefl _ (h3 _ h)
  · unfold recvOf
    rw [List.map_eq_nil_iff, List.filter_eq_nil_iff]
    intro p hp
    have hlt := h4 p hp
    simp only [Subscribe, decide_eq_true_eq]
    exact Nat.ne_of_lt hlt
  · exact fun h => Nat.lt_irrefl _ (h2 _ h)
  · exact Finset.subset_insert _ _
  · exact Finset.card_insert_of_not_mem hfresh

/-- Witness for `subscribe_fresh`: a third `Subscribe` after two subscriptions,
a publish, an unsubscribe and a delivery returns a channel not yet registered. -/
theorem subscribe_fresh_witness :
    (Subscribe (run NewBroker [Action.subscribe, Action.subscribe, Action.publish "m",
        Action.deliver 1 "m", Action.deliver 0 "m", Action.unsubscribe 0])).1
      ∉ (run NewBroker [Action.subscribe, Action.subscribe, Action.publish "m",
        Action.deliver 1 "m", Action.deliver 0 "m", Action.unsubscribe 0]).subscribers :=
  (subscribe_fresh (run NewBroker [Action.subscribe, Action.subscribe, Action.publish "m",
    Action.deliver 1 "m", Action.deliver 0 "m", Action.unsubscribe 0]) (by decide)).1

/-- C7: `Publish` is one step that involves no receive: it returns a state in
which nothing new has been received, nothing has panicked or been closed, every
send that was pending before (an earlier message some subscriber has not taken)
is still pending, and a send of `msg` has been started for every registered
subscriber; the scheduler takes that step in any live state. -/
theorem publish_does_not_wait (b : Broker) (msg : String) :
    (Publish b msg).received = b.received ∧
    (Publish b msg).panicked = b.panicked ∧
    (Publish b msg).closed = b.closed ∧
    b.sending ≤ (Publish b msg).sending ∧
    (∀ ch ∈ b.subscribers, (ch, msg) ∈ (Publish b msg).sending ∧
      pendingCount b ch msg < pendingCount (Publish b msg) ch msg) ∧
    (b.panicked = false → step b (Action.publish msg) = Publish b msg) := by
  refine ⟨rfl, rfl, rfl, ?_, ?_, step_publish b msg⟩
  · exact Multiset.le_add_right _ _
  · intro ch hch
    constructor
    · simp only [Publish, Multiset.mem_add, Multiset.mem_map, Finset.mem_val]
      exact Or.inr ⟨ch, hch, rfl⟩
    · rw [pendingCount_Publish]
      simp [hch]

end pubsub

namespace facade

open golang

/-! ### The claim about the bank-transfer facade -/

/-- C8: on the facade built by `NewBankTransferFacade`, `Transfer` returns nil
exactly when `fromBank` is "SiamBank" or "KBank", `accountNo` is "0123456789"
and `pin` is "1234", whatever `toAcc`, `toBank` and `amount` are; for any other
`fromBank` it returns "unsupported bank: <fromBank>" and calls no method of a
bank API; for a supported bank with a wrong account or pin it returns an error
that wraps the login failure, having called `Login` only. -/
theorem transfer_result {A : Type} (accountNo pin fromBank toAcc toBank : String) (amount : A) :
    ((NewBankTransferFacade.Transfer accountNo pin fromBank toAcc toBank amount).1 = none ↔
      (fromBank = "SiamBank" ∨ fromBank = "KBank") ∧ accountNo = "0123456789" ∧ pin = "1234") ∧
    (fromBank ≠ "SiamBank" → fromBank ≠ "KBank" →
      NewBankTransferFacade.Transfer accountNo pin fromBank toAcc toBank amount
        = (some (GoError.new ("unsupported bank: " ++ fromBank)), [])) ∧
    ((fromBank = "SiamBank" ∨ fromBank = "KBank") →
      ¬ (accountNo = "0123456789" ∧ pin = "1234") →
      NewBankTransferFacade.Transfer accountNo pin fromBank toAcc toBank amount
        = (some (GoError.wrap "login failed: "
            (GoError.new ("invalid account details for bank: " ++ fromBank))), [Call.Login])) := by
  by_cases hs : fromBank = "SiamBank"
  · subst hs
    by_cases ha : accountNo = "0123456789"
    · by_cases hp : pin = "1234"
      · subst ha; subst hp
        refine ⟨?_, ?_, ?_⟩
        · simp [BankTransferFacade.Transfer, NewBankTransferFacade, List.lookup, BankApi.Login,
            SiamBankApi.Login, BaseBankApi.Login, NewSiamBankApi, BankApi.Transfer,
            SiamBankApi.Transfer, BaseBankApi.IsLoggedIn, BankApi.Confirm, SiamBankApi.Confirm]
        · intro h; exact absurd rfl h
        · intro _ h; exact absurd ⟨rfl, rfl⟩ h
      · refine ⟨?_, ?_, ?_⟩
        · simp [BankTransferFacade.Transfer, NewBankTransferFacade, List.lookup, BankApi.Login,
            SiamBankApi.Login, BaseBankApi.Login, NewSiamBankApi, hp]
        · intro h; exact absurd rfl h
        · intro _ _
          simp [BankTransferFacade.Transfer, NewBankTransferFacade, List.lookup, BankApi.Login,
            SiamBankApi.Login, BaseBankApi.Login, NewSiamBankApi, hp]
    · refine ⟨?_, ?_, ?_⟩
      · simp [BankTransferFacade.Transfer, NewBankTransferFacade, List.lookup, BankApi.Login,
          SiamBankApi.Login, BaseBankApi.Login, NewSiamBankApi, ha]
      · intro h; exact absurd rfl h
      · intro _ _
        simp [BankTransferFacade.Transfer, NewBankTransferFacade, List.lookup, BankApi.Login,
          SiamBankApi.Login, BaseBankApi.Login, NewSiamBankApi, ha]
  · by_cases hk : fromBank = "KBank"
    · subst hk
      by_cases ha : accountNo = "0123456789"
      · by_cases hp : pin = "1234"
        · subst ha; subst hp
          refine ⟨?_, ?_, ?_⟩
          · simp [BankTransferFacade.Transfer, NewBankTransferFacade, List.lookup, BankApi.Login,
              KBankApi.Login, BaseBankApi.Login, NewKBankApi, BankApi.Transfer,
              KBankApi.Transfer, BaseBankApi.IsLoggedIn, BankApi.Confirm, KBankApi.Confirm]
          · intro _ h; exact absurd rfl h
          · intro _ h; exact absurd ⟨rfl, rfl⟩ h
        · refine ⟨?_, ?_, ?_⟩
          · simp [BankTransferFacade.Transfer, NewBankTransferFacade, List.lookup, BankApi.Login,
              KBankApi.Login, BaseBankApi.Login, NewKBankApi, hp]
          · intro _ h; exact absurd rfl h
          · intro _ _
            simp [BankTransferFacade.Transfer, NewBankTransferFacade, List.lookup, BankApi.Login,
              KBankApi.Login, BaseBankApi.Login, NewKBankApi, hp]
      · refine ⟨?_, ?_, ?_⟩
        · simp [BankTransferFacade.Transfer, NewBankTransferFacade, List.lookup, BankApi.Login,
            KBankApi.Login, BaseBankApi.Login, NewKBankApi, ha]
        · intro _ h; exact absurd rfl h
        · intro _ _
          simp [BankTransferFacade.Transfer, NewBankTransferFacade, List.lookup, BankApi.Login,
            KBankApi.Login, BaseBankApi.Login, NewKBankApi, ha]
    · have hlook : NewBankTransferFacade.banks.lookup fromBank = none := by
        have e1 : (fromBank == "SiamBank") = false := beq_eq_false_iff_ne.mpr hs
        have e2 : (fromBank == "KBank") = false := beq_eq_false_iff_ne.mpr hk
        simp only [NewBankTransferFacade, List.lookup, e1, e2]
      have hres : NewBankTransferFacade.Transfer accountNo pin fromBank toAcc toBank amount
          = (some (GoError.new ("unsupported bank: " ++ fromBank)), []) := by
        unfold BankTransferFacade.Transfer
        rw [hlook]
      refine ⟨?_, fun _ _ => hres, ?_⟩
      · rw [hres]
        simp [hs, hk]
      · rintro (h | h)
        · exact absurd h hs
        · exact absurd h hk

end facade

namespace factorymethod

open golang

/-! ### The claims about the device factory -/

lemma NewAndroidDevice_specs (s : DeviceSpecs) :
    (NewAndroidDevice s).GetSpecs
      = { s with Platform := if s.Platform = "" then "Android 13.0" else s.Platform } := by
  unfold NewAndroidDevice AndroidDevice.GetSpecs
  by_cases h : s.Platform = "" <;> simp [h]

lemma NewIosDevice_specs (s : DeviceSpecs) :
    (NewIosDevice s).GetSpecs
      = { s with Platform := if s.Platform = "" then "iOS 16.0" else s.Platform } := by
  unfold NewIosDevice IosDevice.GetSpecs
  by_cases h : s.Platform = "" <;> simp [h]

lemma Android_ne_IOS : Android ≠ IOS := by decide

/-- C9: `CreateDevice` returns an error exactly when `deviceType` is neither
`Android` nor `IOS`, and then the device is nil; otherwise the error is nil and
the device's `GetSpecs` is `*specs` (or `defaultSpecs` for a nil `specs`) with an
empty `Platform` replaced by "Android 13.0" for `Android` and "iOS 16.0" for
`IOS`, and `GetPlatform` is the `Platform` of `GetSpecs`; the factory and
`*specs` are as before the call. -/
theorem create_device (f : DeviceFactory) (deviceType : DeviceType)
    (specs : Option DeviceSpecs) :
    ((f.CreateDevice deviceType specs).err ≠ none ↔ deviceType ≠ Android ∧ deviceType ≠ IOS) ∧
    ((f.CreateDevice deviceType specs).err ≠ none ↔ (f.CreateDevice deviceType specs).device = none) ∧
    (deviceType = Android →
      (f.CreateDevice deviceType specs).device.map MobileDevice.GetSpecs
        = some { specs.getD f.defaultSpecs with
            Platform := if (specs.getD f.defaultSpecs).Platform = "" then "Android 13.0"
              else (specs.getD f.defaultSpecs).Platform }) ∧
    (deviceType = IOS →
      (f.CreateDevice deviceType specs).device.map MobileDevice.GetSpecs
        = some { specs.getD f.defaultSpecs with
            Platform := if (specs.getD f.defaultSpecs).Platform = "" then "iOS 16.0"
              else (specs.getD f.defaultSpecs).Platform }) ∧
    (∀ d, (f.CreateDevice deviceType specs).device = some d →
      d.GetPlatform = d.GetSpecs.Platform) ∧
    (f.CreateDevice deviceType specs).factory = f ∧
    (f.CreateDevice deviceType specs).specs = specs := by
  have hfinal : (match specs with
      | some s => s
      | none => f.defaultSpecs) = specs.getD f.defaultSpecs := by
    cases specs <;> rfl
  have hplat : ∀ d : MobileDevice, d.GetPlatform = d.GetSpecs.Platform := by
    intro d
    cases d <;> rfl
  by_cases ha : deviceType = Android
  · subst ha
    have hr : f.CreateDevice Android specs
        = { device := some (MobileDevice.android (NewAndroidDevice (specs.getD f.defaultSpecs))),
            err := none, factory := f, specs := specs } := by
      unfold DeviceFactory.CreateDevice
      simp only [hfinal, if_true]
    rw [hr]
    refine ⟨?_, ?_, ?_, ?_, fun d _ => hplat d, rfl, rfl⟩
    · simp
    · simp
    · intro _
      simp only [Option.map_some', MobileDevice.GetSpecs]
      rw [NewAndroidDevice_specs]
    · intro h
      exact absurd h Android_ne_IOS
  · by_cases hi : deviceType = IOS
    · subst hi
      have hr : f.CreateDevice IOS specs
          = { device := some (MobileDevice.ios (NewIosDevice (specs.getD f.defaultSpecs))),
              err := none, factory := f, specs := specs } := by
        unfold DeviceFactory.CreateDevice
        simp only [hfinal, if_neg ha, if_true]
      rw [hr]
      refine ⟨?_, ?_, ?_, ?_, fun d _ => hplat d, rfl, rfl⟩
      · simp
      · simp
      · intro h
        exact absurd h ha
      · intro _
        simp only [Option.map_some', MobileDevice.GetSpecs]
        rw [NewIosDevice_specs]
    · have hr : f.CreateDevice deviceType specs
          = { device := none,
              err := some (GoError.new ("unsupported device type: " ++ deviceType)),
              factory := f, specs := specs } := by
        unfold DeviceFactory.CreateDevice
        simp only [if_neg ha, if_neg hi]
      rw [hr]
      refine ⟨?_, ?_, fun h => absurd h ha, fun h => absurd h hi, ?_, rfl, rfl⟩
      · simp [ha, hi]
      · simp
      · intro d hd
        simp at hd

/-- C10: an `IosDevice` made by `NewIosDevice`, also when it comes out of
`CreateDevice IOS`, has an empty `appleID`, so `Update` and `InstallApp` return
an error and leave the device, its specs and `appleID` included, as it was; an
`AndroidDevice` made by `NewAndroidDevice` accepts `Update`, which returns nil
and sets `Platform` to "Android " followed by the new version without touching
`RAM`, `Storage` or `CPU`. -/
theorem ios_rejects_android_updates (specs : DeviceSpecs) (newVersion appName : String) :
    (NewIosDevice specs).appleID = "" ∧
    ((NewIosDevice specs).Update newVersion).2 ≠ none ∧
    ((NewIosDevice specs).Update newVersion).1 = NewIosDevice specs ∧
    ((NewIosDevice specs).InstallApp appName).2 ≠ none ∧
    ((NewIosDevice specs).InstallApp appName).1 = NewIosDevice specs ∧
    (∀ (f : DeviceFactory) (sp : Option DeviceSpecs) (d : MobileDevice),
      (f.CreateDevice IOS sp).device = some d →
        (d.Update newVersion).2 ≠ none ∧ (d.Update newVersion).1 = d ∧
        (d.InstallApp appName).2 ≠ none ∧ (d.InstallApp appName).1 = d) ∧
    ((NewAndroidDevice specs).Update newVersion).2 = none ∧
    ((NewAndroidDevice specs).Update newVersion).1.GetSpecs
      = { (NewAndroidDevice specs).GetSpecs with Platform := "Android " ++ newVersion } ∧
    ((NewAndroidDevice specs).Update newVersion).1.GetSpecs.RAM = specs.RAM ∧
    ((NewAndroidDevice specs).Update newVersion).1.GetSpecs.Storage = specs.Storage ∧
    ((NewAndroidDevice specs).Update newVersion).1.GetSpecs.CPU = specs.CPU := by
  have hid : ∀ s : DeviceSpecs, (NewIosDevice s).appleID = "" := fun _ => rfl
  have hu : ∀ s : DeviceSpecs, (NewIosDevice s).Update newVersion
      = (NewIosDevice s, some (GoError.new "cannot update: Apple ID not configured")) := by
    intro s
    unfold IosDevice.Update
    rw [if_pos (hid s)]
  have hi : ∀ s : DeviceSpecs, (NewIosDevice s).InstallApp appName
      = (NewIosDevice s, some (GoError.new "cannot install app: Apple ID not configured")) := by
    intro s
    unfold IosDevice.InstallApp
    rw [if_pos (hid s)]
  have hg : ∀ s : DeviceSpecs, (NewAndroidDevice s).googleServices = true := fun _ => rfl
  have hau : (NewAndroidDevice specs).Update newVersion
      = ({ NewAndroidDevice specs with
            base := { specs := { (NewAndroidDevice specs).base.specs with
              Platform := "Android " ++ newVersion } } }, none) := by
    unfold AndroidDevice.Update
    simp [hg]
  refine ⟨rfl, ?_, ?_, ?_, ?_, ?_, ?_, ?_, ?_, ?_, ?_⟩
  · rw [hu]; simp
  · rw [hu]
  · rw [hi]; simp
  · rw [hi]
  · intro f sp d hd
    have hr : (f.CreateDevice IOS sp).device
        = some (MobileDevice.ios (NewIosDevice (sp.getD f.defaultSpecs))) := by
      unfold DeviceFactory.CreateDevice
      rw [if_neg (fun h => Android_ne_IOS h.symm), if_pos rfl]
      cases sp <;> rfl
    rw [hr] at hd
    cases hd
    simp only [MobileDevice.Update, MobileDevice.InstallApp, hu, hi]
    simp
  · rw [hau]
  · rw [hau]
    rfl
  · rw [hau]
    simp [AndroidDevice.GetSpecs, NewAndroidDevice]
    by_cases h : specs.Platform = "" <;> simp [h]
  · rw [hau]
    simp [AndroidDevice.GetSpecs, NewAndroidDevice]
    by_cases h : specs.Platform = "" <;> simp [h]
  · rw [hau]
    simp [AndroidDevice.GetSpecs, NewAndroidDevice]
    by_cases h : specs.Platform = "" <;> simp [h]

end factorymethod
